import Mathlib

/-!
Shallow embedding of the imagerouter client library core: JSON values as
decoded by Python, the pricing normalizer and model registry (models.py),
the cost estimator (estimator.py), and the transport error classification
and retry loop (client.py). Numbers are modelled as rationals.
-/

/-- A JSON value as decoded by the Python json module. Numbers are
modelled as rationals. -/
inductive JsonVal where
  | null : JsonVal
  | bool : Bool → JsonVal
  | num : ℚ → JsonVal
  | str : String → JsonVal
  | arr : List JsonVal → JsonVal
  | obj : List (String × JsonVal) → JsonVal

/-- Python exception kinds the embedded code can raise, including the
library's own ValidationError and ModelNotFoundError. Exception message
strings are elided: the properties under study concern only the kind. -/
inductive PyExc where
  | typeError : PyExc
  | valueError : PyExc
  | attributeError : PyExc
  | assertionError : PyExc
  | indexError : PyExc
  | keyError : PyExc
  | validationError : PyExc
  | modelNotFoundError : PyExc
deriving DecidableEq

/-- Python truthiness of a decoded JSON value. -/
def pyTruthy : JsonVal → Bool
  | .null => false
  | .bool b => b
  | .num q => q != 0
  | .str s => s != ""
  | .arr xs => !xs.isEmpty
  | .obj fs => !fs.isEmpty

mutual

/-- Python equality on decoded JSON values. Booleans compare equal to
the numbers 0 and 1 as in Python; objects are compared field-for-field
in order (object comparison is never reached on the inputs the claims
quantify over). -/
def pyEq : JsonVal → JsonVal → Bool
  | .null, .null => true
  | .bool a, .bool b => a == b
  | .bool a, .num b => (if a then (1 : ℚ) else 0) == b
  | .num a, .bool b => a == (if b then (1 : ℚ) else 0)
  | .num a, .num b => a == b
  | .str a, .str b => a == b
  | .arr a, .arr b => pyEqList a b
  | .obj a, .obj b => pyEqFields a b
  | _, _ => false

/-- Pointwise Python equality of JSON arrays. -/
def pyEqList : List JsonVal → List JsonVal → Bool
  | [], [] => true
  | x :: xs, y :: ys => pyEq x y && pyEqList xs ys
  | _, _ => false

/-- Field-for-field Python equality of JSON objects. -/
def pyEqFields : List (String × JsonVal) → List (String × JsonVal) → Bool
  | [], [] => true
  | (k, x) :: xs, (l, y) :: ys => k == l && pyEq x y && pyEqFields xs ys
  | _, _ => false

end

/-- Python substring containment, needle in haystack. -/
def substrOccurs (needle hay : String) : Bool :=
  needle == "" || decide (2 ≤ (hay.splitOn needle).length)

/-- Numeric value of a digit string. -/
def digitsNat (cs : List Char) : Nat :=
  cs.foldl (fun a c => 10 * a + (c.toNat - 48)) 0

/-- Parse the exponent suffix of a Python float literal, scaling the
value parsed so far. -/
def parseExpSuffix (cs : List Char) (base : ℚ) : Option ℚ :=
  match cs with
  | [] => some base
  | c :: rest =>
    if c = 'e' ∨ c = 'E' then
      let signedRest : Bool × List Char :=
        match rest with
        | '+' :: r => (false, r)
        | '-' :: r => (true, r)
        | r => (false, r)
      let ds := signedRest.2.takeWhile Char.isDigit
      let tail := signedRest.2.dropWhile Char.isDigit
      if ds.isEmpty || !tail.isEmpty then none
      else if signedRest.1 then some (base / 10 ^ digitsNat ds)
      else some (base * 10 ^ digitsNat ds)
    else none

/-- Parse an unsigned Python float literal: finite decimal forms with an
optional fractional part and exponent. The non-finite literals inf and
nan have no rational value and are treated as unparseable here; no
property under study evaluates them. -/
def parseUnsignedFloat (cs : List Char) : Option ℚ :=
  let intPart := cs.takeWhile Char.isDigit
  let rest := cs.dropWhile Char.isDigit
  match rest with
  | [] => if intPart.isEmpty then none else some (digitsNat intPart)
  | '.' :: rest2 =>
    let fracPart := rest2.takeWhile Char.isDigit
    let rest3 := rest2.dropWhile Char.isDigit
    if intPart.isEmpty && fracPart.isEmpty then none
    else parseExpSuffix rest3
      ((digitsNat intPart : ℚ) + (digitsNat fracPart : ℚ) / 10 ^ fracPart.length)
  | _ =>
    if intPart.isEmpty then none else parseExpSuffix rest (digitsNat intPart)

/-- Python float(...) applied to a string: strip whitespace, optional
sign, then a decimal literal. -/
def parsePyFloat (s : String) : Option ℚ :=
  match s.trim.data with
  | '+' :: rest => parseUnsignedFloat rest
  | '-' :: rest => (parseUnsignedFloat rest).map Neg.neg
  | cs => parseUnsignedFloat cs

/-- Python int(...) applied to a string: strip whitespace, optional
sign, then digits only. -/
def parsePyInt (s : String) : Option Int :=
  match s.trim.data with
  | '+' :: rest =>
    if rest.isEmpty || !rest.all Char.isDigit then none else some (digitsNat rest)
  | '-' :: rest =>
    if rest.isEmpty || !rest.all Char.isDigit then none
    else some (-(digitsNat rest : Int))
  | cs => if cs.isEmpty || !cs.all Char.isDigit then none else some (digitsNat cs)

/-- Python float(x) on a decoded JSON value: numbers and booleans
convert, numeric strings parse, anything else raises (TypeError for
non-strings, ValueError for unparseable strings). -/
def pyFloat : JsonVal → Except PyExc ℚ
  | .num q => .ok q
  | .bool b => .ok (if b then 1 else 0)
  | .str s =>
    match parsePyFloat s with
    | some q => .ok q
    | none => .error .valueError
  | .null => .error .typeError
  | .arr _ => .error .typeError
  | .obj _ => .error .typeError

/-- Python int(x) on a string, as used for the Retry-After header. -/
def pyIntOfString (s : String) : Except PyExc Int :=
  match parsePyInt s with
  | some n => .ok n
  | none => .error .valueError

/-- Python d.get(key, default): raises AttributeError when the receiver
is not a dict (decoded JSON objects have unique keys). -/
def dictGet (v : JsonVal) (k : String) (dflt : JsonVal) : Except PyExc JsonVal :=
  match v with
  | .obj fs => .ok ((fs.lookup k).getD dflt)
  | _ => .error .attributeError

/-- Python d.get(key) with no default: None when the key is absent. -/
def dictGet1 (v : JsonVal) (k : String) : Except PyExc JsonVal :=
  dictGet v k .null

/-- Python x[0] on a decoded JSON value. -/
def pyIndex0 : JsonVal → Except PyExc JsonVal
  | .arr (x :: _) => .ok x
  | .arr [] => .error .indexError
  | .str s =>
    match s.data with
    | c :: _ => .ok (.str (String.mk [c]))
    | [] => .error .indexError
  | .obj _ => .error .keyError
  | _ => .error .typeError

/-- Python membership test, needle in container. JSON object keys are
strings, so a non-string hashable needle is never a member. -/
def pyContains (needle container : JsonVal) : Except PyExc Bool :=
  match container with
  | .arr xs => .ok (xs.any (pyEq needle))
  | .str hay =>
    match needle with
    | .str t => .ok (substrOccurs t hay)
    | _ => .error .typeError
  | .obj fs =>
    match needle with
    | .str t => .ok (fs.any (fun p => p.1 == t))
    | .num _ => .ok false
    | .bool _ => .ok false
    | .null => .ok false
    | _ => .error .typeError
  | _ => .error .typeError

/-- Python needle in msg.lower(): raises AttributeError unless msg is a
string. -/
def lowerContains (msg : JsonVal) (needle : String) : Except PyExc Bool :=
  match msg with
  | .str s => .ok (substrOccurs needle s.toLower)
  | _ => .error .attributeError

/-! ## models.py: pricing normalizer, model records, registry -/

/-- Pricing information for a model (models.py, PricingInfo). The
declared type is kept as the raw decoded value, as Python does. -/
structure PricingInfo where
  pricing_type : JsonVal
  value : Option ℚ := none
  min_price : Option ℚ := none
  max_price : Option ℚ := none
  average_price : Option ℚ := none

/-- PricingInfo.from_api_data: read the declared type (default
"unknown"); for "fixed" read a single numeric value, otherwise read the
nested range object with min, max and average read in that order,
each defaulting to 0 when absent. float conversion can raise. -/
def PricingInfo.from_api_data (pricing_data : JsonVal) : Except PyExc PricingInfo := do
  let pricing_type ← dictGet pricing_data "type" (.str "unknown")
  if pyEq pricing_type (.str "fixed") then
    let value ← pyFloat (← dictGet pricing_data "value" (.num 0))
    return { pricing_type := pricing_type, value := some value,
             min_price := some value, max_price := some value,
             average_price := some value }
  else
    let range_data ← dictGet pricing_data "range" (.obj [])
    let mn ← pyFloat (← dictGet range_data "min" (.num 0))
    let mx ← pyFloat (← dictGet range_data "max" (.num 0))
    let avg ← pyFloat (← dictGet range_data "average" (.num 0))
    return { pricing_type := pricing_type,
             min_price := some mn, max_price := some mx,
             average_price := some avg }

/-- PricingInfo.get_estimate: (min, average, max), collapsing to the
single value for fixed pricing; a missing field reads as 0 via the
Python or-default. -/
def PricingInfo.get_estimate (p : PricingInfo) : ℚ × ℚ × ℚ :=
  match p.value with
  | some v =>
    if pyEq p.pricing_type (.str "fixed") then (v, v, v)
    else (p.min_price.getD 0, p.average_price.getD 0, p.max_price.getD 0)
  | none => (p.min_price.getD 0, p.average_price.getD 0, p.max_price.getD 0)

/-- Information about an available model (models.py, ModelInfo). Fields
other than the pricing record keep the raw decoded values, as the Python
dataclass does not enforce its annotations. -/
structure ModelInfo where
  id : JsonVal
  name : JsonVal
  provider : JsonVal
  output_types : JsonVal
  pricing : PricingInfo
  supported_durations : JsonVal
  supported_sizes : JsonVal
  supports_edit : JsonVal
  raw_data : JsonVal

/-- ModelInfo.from_api_data, with dictionary reads and the pricing
normalizer invoked in the source evaluation order. -/
def ModelInfo.from_api_data (data : JsonVal) : Except PyExc ModelInfo := do
  let pricing_data ← dictGet data "pricing" (.obj [])
  let supported_params ← dictGet data "supported_params" (.obj [])
  let idVal ← dictGet data "id" (.str "")
  let idDefault ← dictGet data "id" (.str "")
  let nameVal ← dictGet data "name" idDefault
  let providerVal ← dictGet data "provider" (.str "unknown")
  let outputVal ← dictGet data "output" (.arr [])
  let pricing ← PricingInfo.from_api_data pricing_data
  let durations ← dictGet1 data "seconds"
  let sizes ← dictGet1 data "sizes"
  let edit ← dictGet supported_params "edit" (.bool false)
  return { id := idVal, name := nameVal, provider := providerVal,
           output_types := outputVal, pricing := pricing,
           supported_durations := durations, supported_sizes := sizes,
           supports_edit := edit, raw_data := data }

/-- ModelInfo.is_video_model: the membership test "video" in
output_types. -/
def ModelInfo.is_video_model (m : ModelInfo) : Except PyExc Bool :=
  pyContains (.str "video") m.output_types

/-- ModelInfo.is_image_model: the membership test "image" in
output_types. -/
def ModelInfo.is_image_model (m : ModelInfo) : Except PyExc Bool :=
  pyContains (.str "image") m.output_types

/-- ModelInfo.get_default_duration: first entry of the supported
durations when that field is truthy, otherwise None. -/
def ModelInfo.get_default_duration (m : ModelInfo) : Except PyExc JsonVal :=
  if pyTruthy m.supported_durations then pyIndex0 m.supported_durations
  else .ok .null

/-- The observable state of a ModelRegistry: how many catalog fetches
its client has performed, and the cached mapping (None before the first
successful population). The cache is an insertion-ordered mapping, as a
Python dict is. -/
structure RegState where
  fetches : Nat
  cache : Option (List (String × ModelInfo))

/-- The registry's client, abstracted: the result of the n-th
list_models call (a decoded catalog mapping, or a raised exception). -/
def TransportFn : Type := Nat → Except PyExc (List (String × JsonVal))

/-- Python dict assignment d[k] = v: overwrite in place when the key
exists, else append. -/
def dictInsert (d : List (String × ModelInfo)) (k : String) (v : ModelInfo) :
    List (String × ModelInfo) :=
  if d.any (fun p => p.1 == k) then
    d.map (fun p => if p.1 == k then (k, v) else p)
  else d ++ [(k, v)]

/-- The body of ModelRegistry.refresh's for loop: build records entry by
entry into the freshly assigned dict; stop at the first entry whose
record construction raises, returning the records built so far together
with the exception. -/
def buildModels : List (String × JsonVal) → List (String × ModelInfo) →
    List (String × ModelInfo) × Option PyExc
  | [], acc => (acc, none)
  | (k, v) :: rest, acc =>
    match ModelInfo.from_api_data v with
    | .ok mi => buildModels rest (dictInsert acc k mi)
    | .error e => (acc, some e)

/-- ModelRegistry.refresh: fetch the catalog (a raising fetch leaves the
cache untouched), then assign an empty dict to the cache and fill it
entry by entry; an entry whose construction raises leaves the cache
holding the records built so far. Every call performs one fetch. -/
def ModelRegistry.refresh (client : TransportFn) (s : RegState) :
    Option PyExc × RegState :=
  match client s.fetches with
  | .error e => (some e, { s with fetches := s.fetches + 1 })
  | .ok raw =>
    let built := buildModels raw []
    (built.2, { fetches := s.fetches + 1, cache := some built.1 })

/-- ModelRegistry._ensure_loaded: refresh only when the cache has never
been populated. -/
def ModelRegistry.ensure_loaded (client : TransportFn) (s : RegState) :
    Option PyExc × RegState :=
  match s.cache with
  | none => ModelRegistry.refresh client s
  | some _ => (none, s)

/-- ModelRegistry.get_model: ensure loaded, then look the id up in the
cache, raising ModelNotFoundError when absent. -/
def ModelRegistry.get_model (client : TransportFn) (model_id : String)
    (s : RegState) : Except PyExc ModelInfo × RegState :=
  match ModelRegistry.ensure_loaded client s with
  | (some e, t) => (.error e, t)
  | (none, t) =>
    match t.cache with
    | none => (.error .assertionError, t)
    | some d =>
      match d.lookup model_id with
      | none => (.error .modelNotFoundError, t)
      | some mi => (.ok mi, t)

/-- ModelRegistry.get_all_models: ensure loaded, then return a copy of
the cached mapping. -/
def ModelRegistry.get_all_models (client : TransportFn) (s : RegState) :
    Except PyExc (List (String × ModelInfo)) × RegState :=
  match ModelRegistry.ensure_loaded client s with
  | (some e, t) => (.error e, t)
  | (none, t) =>
    match t.cache with
    | none => (.error .assertionError, t)
    | some d => (.ok d, t)

/-! ## estimator.py: cost estimation -/

/-- Cost estimate for a generation request (estimator.py,
CostEstimate). duration_seconds holds the resolved duration value, null
standing for Python None. -/
structure CostEstimate where
  model : String
  generation_type : String
  duration_seconds : JsonVal
  count : Int
  price_per_unit : ℚ
  total_min : ℚ
  total_max : ℚ
  total_average : ℚ
  currency : String := "USD"

/-- Duration resolution in CostEstimator.estimate_video: an explicit
seconds argument is used verbatim; otherwise the model default is used,
and a missing default raises ValidationError. -/
def resolveDuration (mi : ModelInfo) (seconds : Option Int) :
    Except PyExc JsonVal :=
  match seconds with
  | some n => .ok (.num n)
  | none =>
    match mi.get_default_duration with
    | .error e => .error e
    | .ok .null => .error .validationError
    | .ok d => .ok d

/-- The duration validation in CostEstimator.estimate_video: when the
supported durations field is truthy, membership of the resolved
duration in it decides validity (Python: model_info.supported_durations
and duration not in model_info.supported_durations). -/
def durationAllowed (mi : ModelInfo) (duration : JsonVal) : Except PyExc Bool :=
  if pyTruthy mi.supported_durations then
    pyContains duration mi.supported_durations
  else .ok true

/-- CostEstimator.estimate_video: validate count, resolve the model,
check the video capability, resolve and validate the duration, then
scale the pricing estimate by count. -/
def CostEstimator.estimate_video (client : TransportFn) (model : String)
    (seconds : Option Int) (count : Int) (s : RegState) :
    Except PyExc CostEstimate × RegState :=
  if count < 1 then (.error .validationError, s)
  else
    match ModelRegistry.get_model client model s with
    | (.error e, t) => (.error e, t)
    | (.ok mi, t) =>
      match mi.is_video_model with
      | .error e => (.error e, t)
      | .ok false => (.error .validationError, t)
      | .ok true =>
        match resolveDuration mi seconds with
        | .error e => (.error e, t)
        | .ok duration =>
          match durationAllowed mi duration with
          | .error e => (.error e, t)
          | .ok false => (.error .validationError, t)
          | .ok true =>
            let est := mi.pricing.get_estimate
            (.ok { model := model, generation_type := "video",
                   duration_seconds := duration, count := count,
                   price_per_unit := est.2.1,
                   total_min := est.1 * count,
                   total_max := est.2.2 * count,
                   total_average := est.2.1 * count }, t)

/-- CostEstimator.estimate_image: validate count, resolve the model,
check the image capability, then scale the pricing estimate by count.
The quality and size arguments are accepted but never read. -/
def CostEstimator.estimate_image (client : TransportFn) (model : String)
    (quality : String) (size : String) (count : Int) (s : RegState) :
    Except PyExc CostEstimate × RegState :=
  if count < 1 then (.error .validationError, s)
  else
    match ModelRegistry.get_model client model s with
    | (.error e, t) => (.error e, t)
    | (.ok mi, t) =>
      match mi.is_image_model with
      | .error e => (.error e, t)
      | .ok false => (.error .validationError, t)
      | .ok true =>
        let est := mi.pricing.get_estimate
        (.ok { model := model, generation_type := "image",
               duration_seconds := .null, count := count,
               price_per_unit := est.2.1,
               total_min := est.1 * count,
               total_max := est.2.2 * count,
               total_average := est.2.1 * count }, t)

/-! ## client.py: error classification and the retry loop -/

/-- The kind of typed library error raised by the transport error
classifier. -/
inductive ErrKind where
  | authentication : ErrKind
  | rateLimit : ErrKind
  | validation : ErrKind
  | modelNotFound : ErrKind
  | insufficientCredits : ErrKind
  | generation : ErrKind
  | imageRouter : ErrKind
deriving DecidableEq

/-- A typed error raised by _handle_error_response: kind, the extracted
message value, the HTTP status code, and the raw payload. -/
structure TypedError where
  kind : ErrKind
  message : JsonVal
  status_code : Nat
  response_data : JsonVal

/-- The data dict used by _handle_error_response: the parsed JSON body,
or the synthesized fallback object wrapping the raw response text when
the body fails to parse. -/
def errorData (parsed : Option JsonVal) (text : String) : JsonVal :=
  match parsed with
  | some j => j
  | none => .obj [("error", .obj [("message", .str text)])]

/-- The message extraction data.get("error", \x7b\x7d).get("message",
response.text) from _handle_error_response. -/
def extractMessage (parsed : Option JsonVal) (text : String) :
    Except PyExc JsonVal := do
  let errObj ← dictGet (errorData parsed text) "error" (.obj [])
  dictGet errObj "message" (.str text)

/-- ImageRouterClient._handle_error_response: classify an HTTP error
response by status code and message content, in source order. The
result is the typed error the Python code raises; an untyped Python
exception (AttributeError from .get or .lower on an ill-shaped value)
surfaces as the error case. -/
def handle_error_response (status_code : Nat) (parsed : Option JsonVal)
    (text : String) : Except PyExc TypedError := do
  let data := errorData parsed text
  let msg ← extractMessage parsed text
  if status_code = 401 then
    return ⟨.authentication, msg, status_code, data⟩
  else if status_code = 429 then
    return ⟨.rateLimit, msg, status_code, data⟩
  else if status_code = 400 then
    return ⟨.validation, msg, status_code, data⟩
  else if status_code = 404 then
    let b ← lowerContains msg "model"
    if b then return ⟨.modelNotFound, msg, status_code, data⟩
    else return ⟨.imageRouter, msg, status_code, data⟩
  else
    let creditHit ← if status_code = 402 then pure true
                    else lowerContains msg "credit"
    if creditHit then
      return ⟨.insufficientCredits, msg, status_code, data⟩
    else if 500 ≤ status_code ∧ status_code < 600 then
      return ⟨.generation, msg, status_code, data⟩
    else
      return ⟨.imageRouter, msg, status_code, data⟩

/-- The specification wording of the status-to-error classification,
written as a pure function of the status and the (string) message, for
comparison with the code translation above. -/
def classifySpec (status : Nat) (msg : String) : ErrKind :=
  if status = 401 then .authentication
  else if status = 429 then .rateLimit
  else if status = 400 then .validation
  else if status = 404 then
    (if substrOccurs "model" msg.toLower then .modelNotFound else .imageRouter)
  else if status = 402 ∨ substrOccurs "credit" msg.toLower then
    .insufficientCredits
  else if 500 ≤ status ∧ status < 600 then .generation
  else .imageRouter

/-- What one underlying HTTP attempt yields: a response (status,
optional Retry-After header, optional parsed JSON body, raw text), or a
transport-level exception. -/
inductive AttemptOutcome where
  | response : Nat → Option String → Option JsonVal → String → AttemptOutcome
  | timeout : AttemptOutcome
  | connectionError : AttemptOutcome
  | requestException : AttemptOutcome

/-- The transient transport failures remembered as last_exception. -/
inductive TransportFailure where
  | timeout : TransportFailure
  | connectionError : TransportFailure
  | requestException : TransportFailure
deriving DecidableEq

/-- How a _request call fails: a typed api error from the classifier, an
untyped Python exception, the NetworkError raised after the attempt
budget is exhausted (carrying the last transient failure, if any), or
the NetworkError that immediately wraps a non-transient request
exception. -/
inductive ReqError where
  | api : TypedError → ReqError
  | py : PyExc → ReqError
  | network : Option TransportFailure → ReqError
  | networkWrapped : TransportFailure → ReqError

/-- The observable result of ImageRouterClient._request: the outcome,
the number of underlying attempts made, and the sleeps performed in
order (seconds). -/
structure ReqResult where
  outcome : Except ReqError JsonVal
  attempts : Nat
  sleeps : List Int

/-- The Retry-After resolution on a 429:
int(response.headers.get("Retry-After", 2 ** attempt)). -/
def retryAfterSeconds (header : Option String) (attempt : Nat) :
    Except PyExc Int :=
  match header with
  | none => .ok (2 ^ attempt)
  | some s => pyIntOfString s

/-- The for loop of ImageRouterClient._request, one case per iteration:
429 sleeps per Retry-After and retries without classifying; other
statuses at least 400 classify immediately; success parses the body;
timeouts and connection errors back off 2 ^ attempt and retry while
budget remains; other request exceptions fail at once. Fuel counts the
loop iterations left out of max_retries. -/
def requestLoop (responses : Nat → AttemptOutcome) (maxRetries : Nat) :
    Nat → Nat → List Int → Option TransportFailure → ReqResult
  | attempt, 0, sleeps, last => ⟨.error (.network last), attempt, sleeps⟩
  | attempt, fuel + 1, sleeps, last =>
    match responses attempt with
    | .response status retryAfter body text =>
      if 400 ≤ status then
        if status = 429 then
          match retryAfterSeconds retryAfter attempt with
          | .ok k => requestLoop responses maxRetries (attempt + 1) fuel
              (sleeps ++ [k]) last
          | .error e => ⟨.error (.py e), attempt + 1, sleeps⟩
        else
          match handle_error_response status body text with
          | .ok te => ⟨.error (.api te), attempt + 1, sleeps⟩
          | .error e => ⟨.error (.py e), attempt + 1, sleeps⟩
      else
        match body with
        | some j => ⟨.ok j, attempt + 1, sleeps⟩
        | none => ⟨.error (.py .valueError), attempt + 1, sleeps⟩
    | .timeout =>
      if attempt < maxRetries - 1 then
        requestLoop responses maxRetries (attempt + 1) fuel
          (sleeps ++ [2 ^ attempt]) (some .timeout)
      else
        requestLoop responses maxRetries (attempt + 1) fuel sleeps
          (some .timeout)
    | .connectionError =>
      if attempt < maxRetries - 1 then
        requestLoop responses maxRetries (attempt + 1) fuel
          (sleeps ++ [2 ^ attempt]) (some .connectionError)
      else
        requestLoop responses maxRetries (attempt + 1) fuel sleeps
          (some .connectionError)
    | .requestException =>
      ⟨.error (.networkWrapped .requestException), attempt + 1, sleeps⟩

/-- ImageRouterClient._request: run the retry loop from attempt 0 with
the full budget. -/
def ImageRouterClient.request (maxRetries : Nat)
    (responses : Nat → AttemptOutcome) : ReqResult :=
  requestLoop responses maxRetries 0 maxRetries [] none

/-! ## Theorems -/

/-- C5: a pricing object with declared type "fixed" and numeric value v
normalizes to the constant triple (v, v, v). -/
theorem fixed_pricing_constant_triple (pd : List (String × JsonVal)) (v : ℚ)
    (htype : pd.lookup "type" = some (.str "fixed"))
    (hval : pd.lookup "value" = some (.num v)) :
    PricingInfo.from_api_data (.obj pd) =
      .ok { pricing_type := .str "fixed", value := some v,
            min_price := some v, max_price := some v,
            average_price := some v } ∧
    PricingInfo.get_estimate
      { pricing_type := .str "fixed", value := some v, min_price := some v,
        max_price := some v, average_price := some v } = (v, v, v) := by
  constructor
  · simp [PricingInfo.from_api_data, dictGet, htype, hval, pyEq, pyFloat,
      Bind.bind, Except.bind, Functor.map, Except.map, Pure.pure, Except.pure]
  · simp [PricingInfo.get_estimate, pyEq]

/-- Witness for C5 at type "fixed", value 23/100. -/
theorem fixed_pricing_constant_triple_witness :
    PricingInfo.from_api_data
        (.obj [("type", .str "fixed"), ("value", .num (23/100))]) =
      .ok { pricing_type := .str "fixed", value := some (23/100),
            min_price := some (23/100), max_price := some (23/100),
            average_price := some (23/100) } :=
  (fixed_pricing_constant_triple
    [("type", .str "fixed"), ("value", .num (23/100))] (23/100) rfl rfl).1

/-- C3 (amended): the pricing normalizer preserves a declared type other
than "fixed" as-is in the kind and processes it via the range path, and
a range input with min a, average b, max c normalizes to the estimate
(a, b, c), absent numeric subfields (or an absent range object)
coercing to 0 — but a malformed present subfield makes it raise rather
than coerce. -/
theorem range_pricing_normalizes (pd rf : List (String × JsonVal)) (t : String)
    (a b c : ℚ)
    (htype : pd.lookup "type" = some (.str t)) (hne : t ≠ "fixed")
    (hrange : pd.lookup "range" = some (.obj rf) ∨
      (pd.lookup "range" = none ∧ rf = []))
    (hmin : rf.lookup "min" = some (.num a) ∨ (rf.lookup "min" = none ∧ a = 0))
    (hmax : rf.lookup "max" = some (.num c) ∨ (rf.lookup "max" = none ∧ c = 0))
    (havg : rf.lookup "average" = some (.num b) ∨
      (rf.lookup "average" = none ∧ b = 0)) :
    PricingInfo.from_api_data (.obj pd) =
      .ok { pricing_type := .str t, value := none, min_price := some a,
            max_price := some c, average_price := some b } ∧
    PricingInfo.get_estimate
      { pricing_type := .str t, value := none, min_price := some a,
        max_price := some c, average_price := some b } = (a, b, c) := by
  constructor
  · have hrange2 : (pd.lookup "range").getD (.obj []) = .obj rf := by
      rcases hrange with h | ⟨h, rfl⟩ <;> simp [h]
    have hmin2 : (rf.lookup "min").getD (.num 0) = .num a := by
      rcases hmin with h | ⟨h, rfl⟩ <;> simp [h]
    have hmax2 : (rf.lookup "max").getD (.num 0) = .num c := by
      rcases hmax with h | ⟨h, rfl⟩ <;> simp [h]
    have havg2 : (rf.lookup "average").getD (.num 0) = .num b := by
      rcases havg with h | ⟨h, rfl⟩ <;> simp [h]
    simp [PricingInfo.from_api_data, dictGet, htype, hne, hrange2, hmin2,
      hmax2, havg2, pyEq, pyFloat,
      Bind.bind, Except.bind, Functor.map, Except.map, Pure.pure, Except.pure]
  · simp [PricingInfo.get_estimate, pyEq]

/-- C3 counterexample: the pricing normalizer does raise on a malformed
numeric subfield — a null range minimum raises TypeError (Python
float(None)) instead of coercing to 0. -/
theorem pricing_normalizer_raises_on_malformed :
    PricingInfo.from_api_data
      (.obj [("type", .str "calculated"), ("range", .obj [("min", .null)])]) =
    .error .typeError := rfl

/-- Witness for the amended C3 at declared type "post_generation" with
min absent, average 9/10, max 12/10. -/
theorem range_pricing_normalizes_witness :
    PricingInfo.from_api_data
        (.obj [("type", .str "post_generation"),
               ("range", .obj [("average", .num (9/10)), ("max", .num (12/10))])]) =
      .ok { pricing_type := .str "post_generation", value := none,
            min_price := some 0, max_price := some (12/10),
            average_price := some (9/10) } :=
  (range_pricing_normalizes
    [("type", .str "post_generation"),
     ("range", .obj [("average", .num (9/10)), ("max", .num (12/10))])]
    [("average", .num (9/10)), ("max", .num (12/10))]
    "post_generation" 0 (9/10) (12/10) rfl (by decide)
    (Or.inl rfl) (Or.inr ⟨rfl, rfl⟩) (Or.inl rfl) (Or.inl rfl)).1

/-- C9: a count below 1 makes both estimators raise ValidationError
before any model resolution: the registry state (fetch count and cache)
is untouched, so an unknown model id still yields ValidationError, not
ModelNotFoundError. -/
theorem count_below_one_fails_first (client : TransportFn) (model : String)
    (seconds : Option Int) (quality size : String) (count : Int) (s : RegState)
    (hc : count < 1) :
    CostEstimator.estimate_video client model seconds count s =
      (.error .validationError, s) ∧
    CostEstimator.estimate_image client model quality size count s =
      (.error .validationError, s) := by
  constructor
  · simp [CostEstimator.estimate_video, hc]
  · simp [CostEstimator.estimate_image, hc]

/-- Witness for C9 at count 0 with a model id not in the catalog and a
client that would serve an empty catalog. -/
theorem count_below_one_fails_first_witness :
    CostEstimator.estimate_video (fun _ => .ok []) "unknown/model" none 0
        ⟨0, none⟩ = (.error .validationError, ⟨0, none⟩) :=
  (count_below_one_fails_first (fun _ => .ok []) "unknown/model" none
    "auto" "auto" 0 ⟨0, none⟩ (by decide)).1

/-- C10: estimate_image is independent of its quality and size
arguments: with the registry state, client, model and count fixed, any
two choices of quality and size produce identical results (same raised
error or equal CostEstimate, and the same final registry state). -/
theorem estimate_image_ignores_quality_size (client : TransportFn)
    (model : String) (q1 z1 q2 z2 : String) (count : Int) (s : RegState) :
    CostEstimator.estimate_image client model q1 z1 count s =
    CostEstimator.estimate_image client model q2 z2 count s := rfl

/-- A concrete model record standing for previously cached catalog
content. -/
def priorModel : ModelInfo :=
  { id := .str "good", name := .str "good", provider := .str "unknown",
    output_types := .arr [.str "image"],
    pricing := { pricing_type := .str "fixed", value := some 1,
                 min_price := some 1, max_price := some 1,
                 average_price := some 1 },
    supported_durations := .null, supported_sizes := .null,
    supports_edit := .bool false, raw_data := .obj [] }

/-- C1 (amended): refresh is atomic only against transport failures. A
raising catalog fetch leaves the prior cache intact and propagates the
exception; once the fetch succeeds the prior cache is discarded and
replaced by the rebuilt mapping — the full mapping when every record
constructs, or the records built before the first failing entry when
one raises, with that exception propagated. -/
theorem refresh_replacement_behavior (client : TransportFn) (s : RegState) :
    (∀ e, client s.fetches = .error e →
      (ModelRegistry.refresh client s).2.cache = s.cache ∧
      (ModelRegistry.refresh client s).1 = some e) ∧
    (∀ raw, client s.fetches = .ok raw →
      (ModelRegistry.refresh client s).2.cache = some (buildModels raw []).1 ∧
      (ModelRegistry.refresh client s).1 = (buildModels raw []).2) := by
  constructor
  · intro e he
    constructor <;> simp [ModelRegistry.refresh, he]
  · intro raw hr
    constructor <;> simp [ModelRegistry.refresh, hr]

/-- C1 counterexample: the cache replacement is not atomic. With a
nonempty prior cache and a catalog whose sole entry raises during
record construction (a null fixed price), refresh raises and afterwards
the cache holds the empty partial rebuild, not the prior mapping. -/
theorem refresh_not_atomic_counterexample :
    (ModelRegistry.refresh
        (fun _ => .ok [("bad", .obj [("pricing",
            .obj [("type", .str "fixed"), ("value", .null)])])])
        ⟨1, some [("good", priorModel)]⟩).1 = some .typeError ∧
    (ModelRegistry.refresh
        (fun _ => .ok [("bad", .obj [("pricing",
            .obj [("type", .str "fixed"), ("value", .null)])])])
        ⟨1, some [("good", priorModel)]⟩).2.cache = some [] ∧
    (ModelRegistry.refresh
        (fun _ => .ok [("bad", .obj [("pricing",
            .obj [("type", .str "fixed"), ("value", .null)])])])
        ⟨1, some [("good", priorModel)]⟩).2.cache ≠
      some [("good", priorModel)] := by
  refine ⟨rfl, rfl, ?_⟩
  intro h
  rw [show (ModelRegistry.refresh
        (fun _ => .ok [("bad", .obj [("pricing",
            .obj [("type", .str "fixed"), ("value", .null)])])])
        ⟨1, some [("good", priorModel)]⟩).2.cache = some [] from rfl] at h
  simp at h

/-- Witness for the amended C1: a transport failure leaves the prior
(nonempty) cache intact. -/
theorem refresh_replacement_behavior_witness :
    (ModelRegistry.refresh (fun _ => .error .valueError)
        ⟨1, some [("good", priorModel)]⟩).2.cache =
      some [("good", priorModel)] :=
  ((refresh_replacement_behavior (fun _ => .error .valueError)
    ⟨1, some [("good", priorModel)]⟩).1 .valueError rfl).1

/-- C7: after a first successful get_all_models on a never-populated
registry, exactly one fetch has happened; a second call is served from
the cache with the same result and an unchanged state; an intervening
refresh performs a second fetch; and a populated cache is never
auto-refreshed by get_all_models, whatever the state. -/
theorem registry_fetches_once_until_refresh (client : TransportFn)
    (s0 s1 : RegState) (d : List (String × ModelInfo))
    (hinit : s0.cache = none)
    (hfirst : ModelRegistry.get_all_models client s0 = (.ok d, s1)) :
    s1.fetches = s0.fetches + 1 ∧
    s1.cache = some d ∧
    ModelRegistry.get_all_models client s1 = (.ok d, s1) ∧
    (ModelRegistry.refresh client s1).2.fetches = s0.fetches + 2 ∧
    (∀ (s : RegState) (d2 : List (String × ModelInfo)), s.cache = some d2 →
      ModelRegistry.get_all_models client s = (.ok d2, s)) := by
  have hcached : ∀ (s : RegState) (d2 : List (String × ModelInfo)),
      s.cache = some d2 → ModelRegistry.get_all_models client s = (.ok d2, s) := by
    intro s d2 h
    simp [ModelRegistry.get_all_models, ModelRegistry.ensure_loaded, h]
  have h1 : s1.fetches = s0.fetches + 1 ∧ s1.cache = some d := by
    rw [ModelRegistry.get_all_models, ModelRegistry.ensure_loaded, hinit,
      ModelRegistry.refresh] at hfirst
    rcases hc : client s0.fetches with e | raw <;> rw [hc] at hfirst
    · simp at hfirst
    · rcases hb : (buildModels raw []).2 with _ | e <;>
        simp [hb] at hfirst <;> rcases hfirst with ⟨hd, hs⟩
      rw [← hs]
      exact ⟨rfl, by rw [hd]⟩
  refine ⟨h1.1, h1.2, hcached s1 d h1.2, ?_, hcached⟩
  rw [ModelRegistry.refresh]
  rcases hc2 : client s1.fetches with e | raw <;> simp [h1.1]

/-- Witness for C7: with a client serving an empty catalog, the second
get_all_models call is a cache hit returning the same mapping and
leaving the registry state unchanged. -/
theorem registry_fetches_once_until_refresh_witness :
    ModelRegistry.get_all_models (fun _ => .ok []) ⟨1, some []⟩ =
      (.ok [], ⟨1, some []⟩) :=
  (registry_fetches_once_until_refresh (fun _ => .ok []) ⟨0, none⟩
    ⟨1, some []⟩ [] rfl rfl).2.2.1

/-- C6: whenever an estimate succeeds, its totals are the per-unit
pricing triple scaled linearly by count and the reported per-unit price
is the per-unit average, for both estimate_video and estimate_image. -/
theorem totals_scale_linearly (client : TransportFn) (model : String)
    (seconds : Option Int) (quality size : String) (count : Int)
    (s s1 : RegState) (mi : ModelInfo) (mn av mx : ℚ)
    (hm : ModelRegistry.get_model client model s = (.ok mi, s1))
    (hp : mi.pricing.get_estimate = (mn, av, mx)) :
    (∀ ce s2,
      CostEstimator.estimate_video client model seconds count s = (.ok ce, s2) →
      ce.total_min = mn * count ∧ ce.total_average = av * count ∧
      ce.total_max = mx * count ∧ ce.price_per_unit = av) ∧
    (∀ ce s2,
      CostEstimator.estimate_image client model quality size count s =
        (.ok ce, s2) →
      ce.total_min = mn * count ∧ ce.total_average = av * count ∧
      ce.total_max = mx * count ∧ ce.price_per_unit = av) := by
  constructor
  · intro ce s2 h
    rw [CostEstimator.estimate_video, hm] at h
    split at h
    · simp at h
    · split at h <;> rename_i heq
      · simp at heq
      · simp only [Prod.mk.injEq, Except.ok.injEq] at heq
        obtain ⟨rfl, rfl⟩ := heq
        rw [hp] at h
        split at h
        · simp at h
        · simp at h
        · split at h
          · simp at h
          · split at h
            · simp at h
            · simp at h
            · simp only [Prod.mk.injEq, Except.ok.injEq] at h
              rw [← h.1]
              exact ⟨rfl, rfl, rfl, rfl⟩
  · intro ce s2 h
    rw [CostEstimator.estimate_image, hm] at h
    split at h
    · simp at h
    · split at h <;> rename_i heq
      · simp at heq
      · simp only [Prod.mk.injEq, Except.ok.injEq] at heq
        obtain ⟨rfl, rfl⟩ := heq
        rw [hp] at h
        split at h
        · simp at h
        · simp at h
        · simp only [Prod.mk.injEq, Except.ok.injEq] at h
          rw [← h.1]
          exact ⟨rfl, rfl, rfl, rfl⟩

/-- Membership of a number in a decoded JSON array of numbers under
Python equality is plain membership of the rational. -/
theorem anyPyEqNum (l : List ℚ) (q : ℚ) :
    (l.map JsonVal.num).any (pyEq (.num q)) = decide (q ∈ l) := by
  induction l with
  | nil => simp
  | cons a t ih =>
    rw [List.map_cons, List.any_cons, ih]
    by_cases h : q = a
    · simp [pyEq, h]
    · simp [pyEq, h, List.mem_cons]

/-- The CostEstimate value estimate_video returns on success, as a
function of the inputs and the resolved duration (the source's return
expression, factored for the statements below). -/
def videoEstimate (model : String) (mi : ModelInfo) (duration : JsonVal)
    (count : Int) : CostEstimate :=
  { model := model, generation_type := "video", duration_seconds := duration,
    count := count, price_per_unit := mi.pricing.get_estimate.2.1,
    total_min := mi.pricing.get_estimate.1 * count,
    total_max := mi.pricing.get_estimate.2.2 * count,
    total_average := mi.pricing.get_estimate.2.1 * count }

/-- C4: duration resolution in estimate_video for a video-capable model
and a valid count. With no supported-durations constraint (absent or
empty), an explicit duration is used verbatim and an omitted one raises
ValidationError; with a nonempty supported-durations list, an explicit
member duration is used verbatim, an explicit non-member raises
ValidationError, and an omitted duration defaults to the first entry of
the list. -/
theorem video_duration_resolution (client : TransportFn) (model : String)
    (count : Int) (s s1 : RegState) (mi : ModelInfo)
    (hcount : 1 ≤ count)
    (hm : ModelRegistry.get_model client model s = (.ok mi, s1))
    (hvid : mi.is_video_model = .ok true) :
    ((mi.supported_durations = .null ∨ mi.supported_durations = .arr []) →
      (∀ n : Int,
        CostEstimator.estimate_video client model (some n) count s =
          (.ok (videoEstimate model mi (.num n) count), s1)) ∧
      CostEstimator.estimate_video client model none count s =
        (.error .validationError, s1)) ∧
    (∀ l : List ℚ, mi.supported_durations = .arr (l.map .num) → l ≠ [] →
      (∀ n : Int, (n : ℚ) ∈ l →
        CostEstimator.estimate_video client model (some n) count s =
          (.ok (videoEstimate model mi (.num n) count), s1)) ∧
      (∀ n : Int, (n : ℚ) ∉ l →
        CostEstimator.estimate_video client model (some n) count s =
          (.error .validationError, s1)) ∧
      CostEstimator.estimate_video client model none count s =
        (.ok (videoEstimate model mi (.num l.headI) count), s1)) := by
  have hnc : ¬count < 1 := not_lt.mpr hcount
  constructor
  · intro hsd
    have hfalsy : pyTruthy mi.supported_durations = false := by
      rcases hsd with h | h <;> simp [h, pyTruthy]
    constructor
    · intro n
      have hda : durationAllowed mi (.num n) = .ok true := by
        simp [durationAllowed, hfalsy]
      rw [CostEstimator.estimate_video, if_neg hnc, hm]
      simp only [hvid, resolveDuration, hda, videoEstimate]
    · have hdd : resolveDuration mi none = .error .validationError := by
        simp [resolveDuration, ModelInfo.get_default_duration, hfalsy]
      rw [CostEstimator.estimate_video, if_neg hnc, hm]
      simp only [hvid, hdd]
  · intro l hl hlne
    have ht : pyTruthy mi.supported_durations = true := by
      rw [hl]
      simpa [pyTruthy, List.isEmpty_iff] using hlne
    have hda2 : ∀ q : ℚ, durationAllowed mi (.num q) = .ok (decide (q ∈ l)) := by
      intro q
      rw [durationAllowed, if_pos ht, hl]
      simp [pyContains, anyPyEqNum]
    refine ⟨?_, ?_, ?_⟩
    · intro n hn
      have hda : durationAllowed mi (.num n) = .ok true := by
        rw [hda2]
        simp [hn]
      rw [CostEstimator.estimate_video, if_neg hnc, hm]
      simp only [hvid, resolveDuration, hda, videoEstimate]
    · intro n hn
      have hda : durationAllowed mi (.num n) = .ok false := by
        rw [hda2]
        simp [hn]
      rw [CostEstimator.estimate_video, if_neg hnc, hm]
      simp only [hvid, resolveDuration, hda]
    · rcases l with _ | ⟨q0, lt⟩
      · exact absurd rfl hlne
      · have hdd : resolveDuration mi none = .ok (.num q0) := by
          simp [resolveDuration, ModelInfo.get_default_duration, hl, pyTruthy,
            pyIndex0]
        have hda : durationAllowed mi (.num q0) = .ok true := by
          rw [hda2]
          simp
        rw [CostEstimator.estimate_video, if_neg hnc, hm]
        simp only [hvid, hdd, hda, videoEstimate, List.headI]

/-- A concrete catalog entry: a video model with range pricing and
supported durations 4, 6, 8 (the specification's worked scenario). -/
def veoData : JsonVal :=
  .obj [("id", .str "google/veo-3.1-fast"),
        ("output", .arr [.str "video"]),
        ("pricing", .obj [("type", .str "calculated"),
          ("range", .obj [("min", .num (6/10)), ("max", .num (12/10)),
                          ("average", .num (9/10))])]),
        ("seconds", .arr [.num 4, .num 6, .num 8])]

/-- The model record the registry builds from veoData. -/
def veoModel : ModelInfo :=
  { id := .str "google/veo-3.1-fast", name := .str "google/veo-3.1-fast",
    provider := .str "unknown", output_types := .arr [.str "video"],
    pricing := { pricing_type := .str "calculated", value := none,
                 min_price := some (6/10), max_price := some (12/10),
                 average_price := some (9/10) },
    supported_durations := .arr [.num 4, .num 6, .num 8],
    supported_sizes := .null, supports_edit := .bool false,
    raw_data := veoData }

/-- A client that always serves the one-entry catalog above. -/
def veoClient : TransportFn := fun _ => .ok [("google/veo-3.1-fast", veoData)]

/-- The registry state after one fetch of the catalog above. -/
def veoReg : RegState := ⟨1, some [("google/veo-3.1-fast", veoModel)]⟩

/-- Witness for C4: on the model with supported durations 4, 6, 8, an
explicit duration of 99 seconds raises ValidationError. -/
theorem video_duration_resolution_witness :
    CostEstimator.estimate_video veoClient "google/veo-3.1-fast" (some 99) 1
        ⟨0, none⟩ = (.error .validationError, veoReg) :=
  ((video_duration_resolution veoClient "google/veo-3.1-fast" 1 ⟨0, none⟩
      veoReg veoModel (by decide) rfl rfl).2
    [4, 6, 8] rfl (by decide)).2.1 99 (by decide)

/-- Witness for C6 at the worked scenario: two four-second videos on the
range-priced model cost 2 times (6/10, 9/10, 12/10). -/
theorem totals_scale_linearly_witness :
    (videoEstimate "google/veo-3.1-fast" veoModel (.num 4) 2).total_min =
        (6/10 : ℚ) * 2 ∧
    (videoEstimate "google/veo-3.1-fast" veoModel (.num 4) 2).total_average =
        (9/10 : ℚ) * 2 ∧
    (videoEstimate "google/veo-3.1-fast" veoModel (.num 4) 2).total_max =
        (12/10 : ℚ) * 2 ∧
    (videoEstimate "google/veo-3.1-fast" veoModel (.num 4) 2).price_per_unit =
        (9/10 : ℚ) :=
  (totals_scale_linearly veoClient "google/veo-3.1-fast" (some 4) "auto" "auto"
      2 ⟨0, none⟩ veoReg veoModel (6/10) (9/10) (12/10) rfl rfl).1
    (videoEstimate "google/veo-3.1-fast" veoModel (.num 4) 2) veoReg rfl

/-- C2 (amended): whenever the message extraction succeeds with a string
(which covers every non-JSON body via the raw-text fallback, and every
JSON object body whose error field, if present, is an object with a
string or absent message), the classifier returns exactly the typed
error given by the specification's first-matching-rule order, carrying
that message, the status code and the raw payload. Ill-shaped bodies
instead make the classifier itself raise an untyped exception. -/
theorem error_classification (status : Nat) (parsed : Option JsonVal)
    (text msg : String)
    (hmsg : extractMessage parsed text = .ok (.str msg)) :
    handle_error_response status parsed text =
      .ok ⟨classifySpec status msg, .str msg, status,
           errorData parsed text⟩ := by
  rw [handle_error_response, classifySpec]
  simp only [hmsg, lowerContains, Bind.bind, Except.bind, Pure.pure,
    Except.pure]
  by_cases h401 : status = 401
  · simp [h401]
  · by_cases h429 : status = 429
    · simp [h401, h429]
    · by_cases h400 : status = 400
      · simp [h401, h429, h400]
      · by_cases h404 : status = 404
        · by_cases hmod : substrOccurs "model" msg.toLower
          · simp [h401, h429, h400, h404, hmod]
          · simp [h401, h429, h400, h404, hmod]
        · by_cases h402 : status = 402
          · simp [h401, h429, h400, h404, h402]
          · by_cases hcr : substrOccurs "credit" msg.toLower
            · simp [h401, h429, h400, h404, h402, hcr]
            · by_cases h5xx : 500 ≤ status ∧ status < 600
              · simp [h401, h429, h400, h404, h402, hcr, h5xx]
              · simp [h401, h429, h400, h404, h402, hcr, h5xx]

/-- C2 counterexample: a 401 whose JSON body is an object whose error
field is a string, not an object, makes the classifier raise an untyped
AttributeError during message extraction instead of an
AuthenticationError carrying the message, status and payload. -/
theorem error_classification_counterexample :
    handle_error_response 401 (some (.obj [("error", .str "oops")])) "raw" =
      .error .attributeError := rfl

/-- Witness for C2 at the specification's scenario: a 401 with body
error.message "Invalid API key" yields AuthenticationError with that
message, status 401 and the raw payload. -/
theorem error_classification_witness :
    handle_error_response 401
        (some (.obj [("error", .obj [("message", .str "Invalid API key")])]))
        "raw" =
      .ok ⟨.authentication, .str "Invalid API key", 401,
           .obj [("error", .obj [("message", .str "Invalid API key")])]⟩ :=
  error_classification 401
    (some (.obj [("error", .obj [("message", .str "Invalid API key")])]))
    "raw" "Invalid API key" rfl

/-- C8: with at least two attempts budgeted, a 429 first response with
an absent or integer Retry-After header followed by a 200 with a JSON
body succeeds with that body after exactly 2 underlying attempts,
having slept the Retry-After value (2 ^ 0 = 1 second when the header is
absent); and in general a 429 with budget remaining never raises: it
sleeps and continues to the next attempt. -/
theorem retry_429_then_success (mr : Nat) (responses : Nat → AttemptOutcome)
    (ra ra2 : Option String) (b1 : Option JsonVal) (t1 t2 : String)
    (j : JsonVal) (k : Int)
    (hmr : 2 ≤ mr)
    (h0 : responses 0 = .response 429 ra b1 t1)
    (h1 : responses 1 = .response 200 ra2 (some j) t2)
    (hk : retryAfterSeconds ra 0 = .ok k) :
    ImageRouterClient.request mr responses = ⟨.ok j, 2, [k]⟩ ∧
    (ra = none → k = 1) ∧
    (∀ (rs : Nat → AttemptOutcome) (i fuel : Nat) (sl : List Int)
       (last : Option TransportFailure) (ra3 : Option String)
       (b3 : Option JsonVal) (t3 : String) (k3 : Int),
       rs i = .response 429 ra3 b3 t3 → retryAfterSeconds ra3 i = .ok k3 →
       requestLoop rs mr i (fuel + 1) sl last =
         requestLoop rs mr (i + 1) fuel (sl ++ [k3]) last) := by
  refine ⟨?_, ?_, ?_⟩
  · obtain ⟨m, rfl⟩ : ∃ m, mr = m + 2 := ⟨mr - 2, by omega⟩
    rw [ImageRouterClient.request]
    show requestLoop responses (m + 2) 0 ((m + 1) + 1) [] none = ⟨.ok j, 2, [k]⟩
    rw [requestLoop, h0]
    norm_num
    rw [hk]
    show requestLoop responses (m + 2) 1 (m + 1) [k] none = ⟨.ok j, 2, [k]⟩
    rw [requestLoop, h1]
    norm_num
  · intro hra
    rw [hra, retryAfterSeconds] at hk
    have := Except.ok.inj hk
    omega
  · intro rs i fuel sl last ra3 b3 t3 k3 hri hk3
    rw [requestLoop, hri]
    norm_num
    rw [hk3]

/-- Witness for C8: budget 2, first attempt 429 without Retry-After,
second attempt 200 with body null — the call returns the body after 2
attempts with a single 1-second sleep. -/
theorem retry_429_then_success_witness :
    ImageRouterClient.request 2
        (fun i => if i = 0 then .response 429 none none "rate"
                  else .response 200 none (some .null) "") =
      ⟨.ok .null, 2, [1]⟩ :=
  (retry_429_then_success 2
    (fun i => if i = 0 then .response 429 none none "rate"
              else .response 200 none (some .null) "")
    none none none "rate" "" .null 1 (by decide) rfl rfl rfl).1
